import Mathlib

/-!
Verification of the employee-attrition dashboard script (app.py).

The script loads three persisted artifacts (classifier, scaler, ordered
feature-name list) and, on each form submission, runs a linear pipeline:
dict of six form fields → single-row frame → one-hot encoding → column
alignment against the persisted feature names (zero-filling absent
columns) → scaling → classifier inference → probability → threshold
bucketing, followed by purely templated insights, actions, charts and
text/CSV/JSON exports.

This file embeds that logic shallowly.  A single-row data frame is a list
of (column name, rational value) pairs; the opaque persisted artifacts
(model, scaler, feature list) are parameters.  Exact decimal formatting of
binary floats is modelled by fixed-point formatting of exact rationals;
the generation timestamp is an explicit string parameter.
-/

/-- The six raw form fields collected by the input form (the
`employee_input` dict of app.py): age, monthly income, years at company,
overtime ("Yes"/"No" selectbox), job satisfaction (1–4), work-life
balance (1–4). -/
structure EmployeeInput where
  age : ℕ
  monthlyIncome : ℕ
  yearsAtCompany : ℕ
  overtime : String
  jobSatisfaction : ℕ
  workLifeBalance : ℕ
  deriving DecidableEq

/-- Column lookup in a single-row frame: the value of the first column
with the given name, if present. -/
def colLookup : List (String × ℚ) → String → Option ℚ
  | [], _ => none
  | (k, v) :: rest, c => if k = c then some v else colLookup rest c

/-- `pd.get_dummies(pd.DataFrame([employee_input]))`: the five numeric
columns pass through in order, and the single categorical column
`OverTime` is expanded into the one dummy column `OverTime_<value>`
(value 1) that the single row exhibits. -/
def input_df_encoded (e : EmployeeInput) : List (String × ℚ) :=
  [("Age", (e.age : ℚ)), ("MonthlyIncome", (e.monthlyIncome : ℚ)),
   ("YearsAtCompany", (e.yearsAtCompany : ℚ)),
   ("JobSatisfaction", (e.jobSatisfaction : ℚ)),
   ("WorkLifeBalance", (e.workLifeBalance : ℚ)),
   ("OverTime_" ++ e.overtime, 1)]

/-- The loop `for col in feature_names: if col not in input_df_encoded.columns:
input_df_encoded[col] = 0` — append, in feature-list order, a zero column
for every expected column the encoded row lacks. -/
def addMissingCols (fn : List String) (row : List (String × ℚ)) : List (String × ℚ) :=
  fn.foldl (fun acc c => if (colLookup acc c).isSome then acc else acc ++ [(c, 0)]) row

/-- The reindexing step `input_df_encoded = input_df_encoded[feature_names]`:
select exactly the expected columns, in the expected order, from the
zero-extended row. -/
def alignRow (fn : List String) (row : List (String × ℚ)) : List ℚ :=
  fn.map (fun c => (colLookup (addMissingCols fn row) c).getD 0)

/-- The risk-level bucketing of app.py lines 224–238 (the emoji, colour
and card class chosen alongside follow the same branches). -/
def risk_level (p : ℚ) : String :=
  if p < 3/10 then "Low Risk" else if p < 6/10 then "Medium Risk" else "High Risk"

theorem colLookup_append (l₁ l₂ : List (String × ℚ)) (c : String) :
    colLookup (l₁ ++ l₂) c =
      match colLookup l₁ c with
      | some v => some v
      | none => colLookup l₂ c := by
  induction l₁ with
  | nil => rfl
  | cons p rest ih =>
    obtain ⟨k, v⟩ := p
    by_cases h : k = c <;> simp [colLookup, h, ih]

theorem colLookup_zeros (extra : List (String × ℚ)) (h : ∀ p ∈ extra, p.2 = 0)
    (c : String) : (colLookup extra c).getD 0 = 0 := by
  induction extra with
  | nil => rfl
  | cons p rest ih =>
    obtain ⟨k, v⟩ := p
    have hv : v = 0 := h (k, v) (List.mem_cons_self _ _)
    by_cases hk : k = c
    · simp [colLookup, hk, hv]
    · simpa [colLookup, hk] using ih (fun q hq => h q (List.mem_cons_of_mem _ hq))

theorem addMissingCols_eq_append (fn : List String) (row : List (String × ℚ)) :
    ∃ extra, addMissingCols fn row = row ++ extra ∧ ∀ p ∈ extra, p.2 = 0 := by
  induction fn generalizing row with
  | nil => exact ⟨[], by simp [addMissingCols]⟩
  | cons c fn ih =>
    have hstep : addMissingCols (c :: fn) row
        = addMissingCols fn (if (colLookup row c).isSome then row else row ++ [(c, 0)]) := rfl
    by_cases h : (colLookup row c).isSome
    · rw [hstep, if_pos h]; exact ih row
    · rw [hstep, if_neg h]
      obtain ⟨extra, heq, hz⟩ := ih (row ++ [(c, 0)])
      refine ⟨(c, 0) :: extra, by simpa using heq, ?_⟩
      intro p hp
      rcases List.mem_cons.mp hp with hp | hp
      · rw [hp]
      · exact hz p hp

theorem alignRow_lookup (fn : List String) (row : List (String × ℚ)) (c : String) :
    (colLookup (addMissingCols fn row) c).getD 0 = (colLookup row c).getD 0 := by
  obtain ⟨extra, heq, hz⟩ := addMissingCols_eq_append fn row
  rw [heq, colLookup_append]
  cases hc : colLookup row c with
  | some v => rfl
  | none => simpa using colLookup_zeros extra hz c

/-- C1: feature alignment of an arbitrary one-hot-encoded single row
against the persisted ordered feature list yields exactly one value per
expected column, in exactly the order of the persisted list, each value
being the encoded row's value when that column is present and 0
otherwise — for every feature list and every encoded row, hence
regardless of which categorical dummies the input happens to contain. -/
theorem feature_alignment_contract (fn : List String) (row : List (String × ℚ)) :
    (alignRow fn row).length = fn.length ∧
      alignRow fn row = fn.map (fun c => (colLookup row c).getD 0) := by
  have hfun : (fun c => (colLookup (addMissingCols fn row) c).getD 0)
      = fun c => (colLookup row c).getD 0 := funext (alignRow_lookup fn row)
  constructor
  · simp [alignRow]
  · rw [alignRow, hfun]

/-- C2: risk bucketing is a pure function of the probability that
partitions the line into exactly three buckets with boundaries 0.3 and
0.6; the boundary 0.3 itself is Medium Risk and 0.6 itself is High Risk,
and by the three characterising equivalences every probability falls in
exactly one bucket. -/
theorem probability_bucketing_partition (p : ℚ) :
    (risk_level p = "Low Risk" ↔ p < 3/10) ∧
      (risk_level p = "Medium Risk" ↔ 3/10 ≤ p ∧ p < 6/10) ∧
      (risk_level p = "High Risk" ↔ 6/10 ≤ p) ∧
      risk_level (3/10) = "Medium Risk" ∧ risk_level (6/10) = "High Risk" := by
  have hb1 : risk_level (3/10) = "Medium Risk" := by norm_num [risk_level]
  have hb2 : risk_level (6/10) = "High Risk" := by norm_num [risk_level]
  by_cases hlo : p < 3/10
  · have hv : risk_level p = "Low Risk" := by rw [risk_level, if_pos hlo]
    rw [hv]
    refine ⟨by simp [hlo], ?_, ?_, hb1, hb2⟩
    · exact iff_of_false (by decide) (fun h => absurd hlo (not_lt.mpr h.1))
    · exact iff_of_false (by decide) (fun h => absurd hlo (not_lt.mpr (by linarith)))
  · by_cases hmid : p < 6/10
    · have hv : risk_level p = "Medium Risk" := by
        rw [risk_level, if_neg hlo, if_pos hmid]
      rw [hv]
      refine ⟨iff_of_false (by decide) hlo, ?_, ?_, hb1, hb2⟩
      · simp [not_lt.mp hlo, hmid]
      · exact iff_of_false (by decide) (fun h => absurd hmid (not_lt.mpr h))
    · have hv : risk_level p = "High Risk" := by
        rw [risk_level, if_neg hlo, if_neg hmid]
      rw [hv]
      refine ⟨iff_of_false (by decide) hlo, ?_, ?_, hb1, hb2⟩
      · exact iff_of_false (by decide) (fun h => absurd h.2 hmid)
      · simp [not_lt.mp hmid]

/-- The equality `alignRow fn row = fn.map (lookup-or-zero)` shared by the
pipeline theorems. -/
theorem alignRow_eq_map (fn : List String) (row : List (String × ℚ)) :
    alignRow fn row = fn.map (fun c => (colLookup row c).getD 0) := by
  rw [alignRow, funext (alignRow_lookup fn row)]

/-- The three persisted artifacts loaded by `load_model`: the trained
classifier (predict / predict_proba over a list of rows), the fitted
scaler (transform over a list of rows) and the ordered feature-name list.
All three are opaque pickled objects, so they are parameters of the
embedding. -/
structure Artifacts where
  feature_names : List String
  scaler_transform : List (List ℚ) → List (List ℚ)
  model_predict : List (List ℚ) → List ℕ
  model_predict_proba : List (List ℚ) → List (List ℚ)

/-- `input_scaled = scaler.transform(input_df_encoded)` after alignment;
the frame holds the single encoded, aligned row. -/
def input_scaled (a : Artifacts) (e : EmployeeInput) : List (List ℚ) :=
  a.scaler_transform [alignRow a.feature_names (input_df_encoded e)]

/-- `prediction = model.predict(input_scaled)[0]` (row 0 of the predicted
labels; `[0]` on a Python array is modelled by `getD 0` with default 0). -/
def prediction (a : Artifacts) (e : EmployeeInput) : ℕ :=
  (a.model_predict (input_scaled a e)).getD 0 0

/-- `probability = model.predict_proba(input_scaled)[0][1]` — the class-1
probability of the single row. -/
def probability (a : Artifacts) (e : EmployeeInput) : ℚ :=
  ((a.model_predict_proba (input_scaled a e)).getD 0 []).getD 1 0

/-- The risk level rendered for a submission is the bucketing applied to
the probability the pipeline just produced. -/
def rendered_risk_level (a : Artifacts) (e : EmployeeInput) : String :=
  risk_level (probability a e)

/-- C5: the label and probability are exactly the staged composition, in
order — the six form fields are packed into the encoded single row, that
row is aligned against the persisted feature list by lookup-or-zero in
list order, the aligned row is scaled by the persisted scaler, the scaled
row goes to the persisted model's predict / predict_proba, the class-1
entry of row 0 is the probability, and that probability is what the
threshold bucketing consumes. -/
theorem prediction_pipeline_stages (a : Artifacts) (e : EmployeeInput) :
    prediction a e = (a.model_predict (a.scaler_transform
        [a.feature_names.map (fun c => (colLookup (input_df_encoded e) c).getD 0)])).getD 0 0 ∧
      probability a e = ((a.model_predict_proba (a.scaler_transform
        [a.feature_names.map (fun c => (colLookup (input_df_encoded e) c).getD 0)])).getD 0
          []).getD 1 0 ∧
      rendered_risk_level a e = risk_level (probability a e) := by
  refine ⟨?_, ?_, rfl⟩ <;>
    simp only [prediction, probability, input_scaled, alignRow_eq_map]

/-- `(max(probability, 1-probability)) * 100` (app.py line 300). -/
def confidence (p : ℚ) : ℚ := max p (1 - p) * 100

/-- Headline insight appended first (lines 391–396). -/
def insight_critical : String :=
  "⚠️ **Critical Alert:** Employee shows high attrition probability"

def insight_watch : String :=
  "⚡ **Watch Alert:** Moderate risk detected - early intervention recommended"

def insight_positive : String :=
  "✅ **Positive Signal:** Low attrition risk - employee appears stable"

/-- The insight list built by the if/elif appends of lines 390–416. -/
def insights (e : EmployeeInput) (p : ℚ) : List String :=
  [if p ≥ 6/10 then insight_critical
   else if p ≥ 3/10 then insight_watch else insight_positive]
  ++ (if e.overtime = "Yes" ∧ e.jobSatisfaction ≤ 2 then
        ["🚨 **Red Flag:** Overtime combined with low satisfaction is critical"]
      else if e.overtime = "Yes" then
        ["⏰ **Concern:** Overtime work may lead to burnout"] else [])
  ++ (if e.jobSatisfaction ≤ 2 then
        ["😔 **Issue:** Low job satisfaction requires immediate attention"] else [])
  ++ (if e.workLifeBalance ≤ 2 then
        ["⚖️ **Concern:** Poor work-life balance affecting wellbeing"] else [])
  ++ (if e.monthlyIncome < 5000 ∧ e.age > 35 then
        ["💰 **Concern:** Compensation may be below market rate for experience level"] else [])
  ++ (if e.yearsAtCompany > 10 ∧ e.jobSatisfaction ≤ 2 then
        ["🔥 **Burnout Risk:** Long-tenured employee showing dissatisfaction"] else [])
  ++ (if e.yearsAtCompany < 1 then
        ["👋 **New Hire Risk:** Recently joined - onboarding quality check needed"] else [])

/-- Recommended actions for the high bucket (lines 429–436). -/
def actions_high : List String :=
  ["🚨 **Immediate:** Schedule retention interview within 48 hours",
   "💼 **Career:** Discuss promotion opportunities and career growth path",
   "💰 **Compensation:** Review and adjust salary to market standards",
   "🎁 **Recognition:** Implement immediate recognition and rewards",
   "📚 **Development:** Offer sponsored training or certification programs",
   "🤝 **Mentorship:** Pair with senior leader for guidance"]

/-- Recommended actions for the medium bucket (lines 438–445). -/
def actions_medium : List String :=
  ["📋 **Monitor:** Conduct monthly check-ins and pulse surveys",
   "🎯 **Engage:** Include in key projects and decision-making",
   "🏆 **Recognize:** Public acknowledgment in team meetings",
   "⏰ **Flexibility:** Offer flexible hours or remote work options",
   "📈 **Growth:** Create clear development roadmap",
   "🤝 **Connect:** Foster stronger team relationships"]

/-- Recommended actions for the low bucket (lines 447–454). -/
def actions_low : List String :=
  ["✅ **Maintain:** Continue current engagement practices",
   "🌟 **Opportunities:** Offer leadership or mentorship roles",
   "📚 **Learning:** Provide advanced skill development programs",
   "🎯 **Challenge:** Assign stretch projects to maintain interest",
   "🏆 **Reward:** Ensure competitive compensation and benefits",
   "👥 **Culture:** Keep them engaged in culture initiatives"]

/-- The recommended-actions selection (lines 428–454). -/
def actions (p : ℚ) : List String :=
  if p ≥ 6/10 then actions_high
  else if p ≥ 3/10 then actions_medium else actions_low

/-- Default follow-up priority of the priority slider (lines 715–719). -/
def follow_up_priority (p : ℚ) : String :=
  if p ≥ 6/10 then "High" else if p ≥ 3/10 then "Medium" else "Low"

/-- C6: the risk bucket, the headline insight, the action list and the
default follow-up priority are all driven by one and the same
partition of the probability at 0.3 and 0.6 — each probability lands in
exactly one of three joint outcomes, and the three action lists are
pairwise distinct, so no input can receive the label of one bucket with
the action list or priority of another. -/
theorem threshold_chains_agree (e : EmployeeInput) (p : ℚ) :
    ((p < 3/10 ∧ risk_level p = "Low Risk" ∧
        (insights e p).head? = some insight_positive ∧
        actions p = actions_low ∧ follow_up_priority p = "Low") ∨
      (3/10 ≤ p ∧ p < 6/10 ∧ risk_level p = "Medium Risk" ∧
        (insights e p).head? = some insight_watch ∧
        actions p = actions_medium ∧ follow_up_priority p = "Medium") ∨
      (6/10 ≤ p ∧ risk_level p = "High Risk" ∧
        (insights e p).head? = some insight_critical ∧
        actions p = actions_high ∧ follow_up_priority p = "High")) ∧
      actions_high ≠ actions_medium ∧ actions_high ≠ actions_low ∧
      actions_medium ≠ actions_low := by
  refine ⟨?_, by decide, by decide, by decide⟩
  by_cases hlo : p < 3/10
  · have h3 : ¬ p ≥ 3/10 := not_le.mpr hlo
    have h6 : ¬ p ≥ 6/10 := not_le.mpr (by linarith)
    exact Or.inl ⟨hlo, by rw [risk_level, if_pos hlo],
      by simp [insights, h3, h6], by rw [actions, if_neg h6, if_neg h3],
      by rw [follow_up_priority, if_neg h6, if_neg h3]⟩
  · by_cases hmid : p < 6/10
    · have h3 : p ≥ 3/10 := not_lt.mp hlo
      have h6 : ¬ p ≥ 6/10 := not_le.mpr hmid
      exact Or.inr (Or.inl ⟨h3, hmid, by rw [risk_level, if_neg hlo, if_pos hmid],
        by simp [insights, h3, h6], by rw [actions, if_neg h6, if_pos h3],
        by rw [follow_up_priority, if_neg h6, if_pos h3]⟩)
    · have h6 : p ≥ 6/10 := not_lt.mp hmid
      exact Or.inr (Or.inr ⟨h6, by rw [risk_level, if_neg hlo, if_neg hmid],
        by simp [insights, h6], by rw [actions, if_pos h6],
        by rw [follow_up_priority, if_pos h6]⟩)

/-- C8: for every probability in [0,1] the displayed confidence
`max(p, 1-p) * 100` lies in [50, 100], and it equals 50 exactly when the
probability is one half — a confidence below 50% is never produced. -/
theorem confidence_bounds (p : ℚ) (h0 : 0 ≤ p) (h1 : p ≤ 1) :
    50 ≤ confidence p ∧ confidence p ≤ 100 ∧ (confidence p = 50 ↔ p = 1/2) := by
  have hub : max p (1 - p) ≤ 1 := max_le h1 (by linarith)
  have hlb : (1 : ℚ)/2 ≤ max p (1 - p) := by
    rcases le_total p (1/2) with h | h
    · exact le_trans (by linarith) (le_max_right p (1 - p))
    · exact le_trans h (le_max_left p (1 - p))
  refine ⟨by rw [confidence]; linarith, by rw [confidence]; linarith, ?_, ?_⟩
  · intro hc
    rw [confidence] at hc
    have hmax : max p (1 - p) = 1/2 := by linarith
    have hp : p ≤ 1/2 := hmax ▸ le_max_left p (1 - p)
    have hq : 1 - p ≤ 1/2 := hmax ▸ le_max_right p (1 - p)
    linarith
  · intro hp
    rw [hp, confidence]
    norm_num

theorem confidence_bounds_witness :
    (0 : ℚ) ≤ 7/10 ∧ (7/10 : ℚ) ≤ 1 ∧
      (50 ≤ confidence (7/10) ∧ confidence (7/10) ≤ 100 ∧
        (confidence (7/10) = 50 ↔ (7/10 : ℚ) = 1/2)) :=
  ⟨by norm_num, by norm_num, confidence_bounds (7/10) (by norm_num) (by norm_num)⟩

/-- The factor names appended by the breakdown of lines 310–350 (each
if/else appends the same name, so the name list is fixed). -/
def risk_factors : List String :=
  ["Overtime Work", "Job Satisfaction", "Work-Life Balance", "Compensation", "Tenure"]

/-- The parallel scores appended by the same if/else chains. -/
def risk_scores (e : EmployeeInput) : List ℕ :=
  [if e.overtime = "Yes" then 25 else 5,
   if e.jobSatisfaction ≤ 2 then 30 else 10,
   if e.workLifeBalance ≤ 2 then 25 else 8,
   if e.monthlyIncome < 5000 ∧ e.age > 30 then 20 else 7,
   if e.yearsAtCompany < 2 then 15
   else if e.yearsAtCompany > 10 then 12 else 5]

/-- C9: on every submission — the breakdown reads only the form inputs,
never the model output — there are exactly five factors in the fixed
order Overtime Work, Job Satisfaction, Work-Life Balance, Compensation,
Tenure, and the five scores come from the fixed finite sets {5,25},
{10,30}, {8,25}, {7,20}, {5,12,15} respectively. -/
theorem risk_factor_breakdown (e : EmployeeInput) :
    risk_factors = ["Overtime Work", "Job Satisfaction", "Work-Life Balance",
        "Compensation", "Tenure"] ∧
      risk_factors.length = 5 ∧ (risk_scores e).length = 5 ∧
      ∃ s₁ s₂ s₃ s₄ s₅, risk_scores e = [s₁, s₂, s₃, s₄, s₅] ∧
        s₁ ∈ ([5, 25] : List ℕ) ∧ s₂ ∈ ([10, 30] : List ℕ) ∧
        s₃ ∈ ([8, 25] : List ℕ) ∧ s₄ ∈ ([7, 20] : List ℕ) ∧
        s₅ ∈ ([5, 12, 15] : List ℕ) := by
  refine ⟨rfl, rfl, rfl, _, _, _, _, _, rfl, ?_, ?_, ?_, ?_, ?_⟩ <;>
    split_ifs <;> simp

/-- `replacement_cost = monthly_income * 6` (line 804). -/
def replacement_cost (mi : ℕ) : ℤ := (mi : ℤ) * 6

/-- `intervention_cost = 5000` (line 813). -/
def intervention_cost : ℤ := 5000

/-- `potential_savings = replacement_cost - intervention_cost` (line 822). -/
def potential_savings (mi : ℕ) : ℤ := replacement_cost mi - intervention_cost

/-- `roi_percentage = (potential_savings / intervention_cost) * 100`
(line 823; Python true division, exact on these integers). -/
def roi_percentage (mi : ℕ) : ℚ :=
  ((potential_savings mi : ℚ) / (intervention_cost : ℚ)) * 100

/-- C10: under the form's lower bound of 1000 on monthly income, the
potential savings 6·income − 5000 are at least 1000 (hence strictly
positive) and the displayed ROI percentage is strictly positive. -/
theorem roi_always_positive (mi : ℕ) (h : 1000 ≤ mi) :
    1000 ≤ potential_savings mi ∧ 0 < roi_percentage mi := by
  have hmi : (1000 : ℤ) ≤ (mi : ℤ) := by exact_mod_cast h
  have hs : 1000 ≤ potential_savings mi := by
    rw [potential_savings, replacement_cost, intervention_cost]; linarith
  refine ⟨hs, ?_⟩
  have hq : (0 : ℚ) < (potential_savings mi : ℚ) := by exact_mod_cast lt_of_lt_of_le (by norm_num) hs
  rw [roi_percentage, intervention_cost]
  positivity

theorem roi_always_positive_witness :
    1000 ≤ (1000 : ℕ) ∧
      (1000 ≤ potential_savings 1000 ∧ 0 < roi_percentage 1000) :=
  ⟨le_refl 1000, roi_always_positive 1000 (le_refl 1000)⟩

/-- Fixed-point decimal rendering with `nd` places, used for the Python
format specifiers `:.1f` / `:.2f` applied to the exact rational value
(ties round up). -/
def qfloor (q : ℚ) : ℤ := q.num.fdiv q.den

def fmtFixed (nd : ℕ) (q : ℚ) : String :=
  let n : ℕ := (qfloor (q * (10 : ℚ) ^ nd + 1/2)).toNat
  let ip := n / 10 ^ nd
  let fp := n % 10 ^ nd
  let fs := toString fp
  if nd = 0 then toString ip
  else toString ip ++ "." ++ String.mk (List.replicate (nd - fs.length) '0') ++ fs

/-- The Python format specifier `:.1%`. -/
def fmtPercent1 (q : ℚ) : String := fmtFixed 1 (q * 100) ++ "%"

/-- The Python format specifier `:,` — thousands-separated decimal
rendering of a natural number. -/
def fmtThousands (n : ℕ) : String :=
  let ds := (toString n).toList.reverse
  String.mk ((ds.enum.map
    (fun ic => if ic.1 ≠ 0 ∧ ic.1 % 3 = 0 then [',', ic.2] else [ic.2])).flatten.reverse)

/-- `str.upper()` on the ASCII risk-level strings. -/
def strUpper (s : String) : String := s.map Char.toUpper

/-- The separator line `'='*60` of the text report. -/
def eq_line : String := String.mk (List.replicate 60 '=')

/-- The plain-text report (app.py lines 600–631).  The generation date
`report_date = datetime.now().strftime("%B %d, %Y")` enters as an
explicit string parameter. -/
def pdf_text (e : EmployeeInput) (pred : ℕ) (p : ℚ) (report_date : String) : String :=
  "\nEMPLOYEE ATTRITION RISK ASSESSMENT REPORT\n" ++
  "Generated: " ++ report_date ++ "\n" ++
  eq_line ++ "\n\nEMPLOYEE PROFILE\n" ++ eq_line ++ "\n" ++
  "Age: " ++ toString e.age ++ " years\n" ++
  "Tenure: " ++ toString e.yearsAtCompany ++ " years\n" ++
  "Monthly Income: $" ++ fmtThousands e.monthlyIncome ++ "\n" ++
  "Overtime: " ++ e.overtime ++ "\n" ++
  "Job Satisfaction: " ++ toString e.jobSatisfaction ++ "/4\n" ++
  "Work-Life Balance: " ++ toString e.workLifeBalance ++ "/4\n" ++
  "\nRISK ASSESSMENT\n" ++ eq_line ++ "\n" ++
  "Prediction: " ++ (if pred = 1 then "ATTRITION LIKELY" else "RETENTION LIKELY") ++ "\n" ++
  "Risk Probability: " ++ fmtPercent1 p ++ "\n" ++
  "Risk Level: " ++ strUpper (risk_level p) ++ "\n" ++
  "Confidence Score: " ++ fmtFixed 1 (confidence p) ++ "%\n" ++
  "\nKEY INSIGHTS\n" ++ eq_line ++ "\n" ++
  String.intercalate "\n" ((insights e p).map (fun s => "• " ++ s)) ++ "\n" ++
  "\nRECOMMENDED ACTIONS\n" ++ eq_line ++ "\n" ++
  String.intercalate "\n" ((actions p).enum.map
    (fun ia => toString (ia.1 + 1) ++ ". " ++ ia.2)) ++ "\n" ++
  "\n" ++ eq_line ++ "\nReport generated by AI HR Analytics Platform\n            "

/-- Minimal CSV field quoting, as `DataFrame.to_csv` performs it: a field
containing a comma, quote or line break is wrapped in double quotes with
inner quotes doubled. -/
def csvField (s : String) : String :=
  if s.toList.any (fun c => c = ',' || c = '"' || c = '\n' || c = '\r') then
    "\"" ++ String.join (s.toList.map
      (fun c => if c = '"' then "\"\"" else String.mk [c])) ++ "\""
  else s

/-- The header of the one-row CSV export — the insertion order of the
dict at app.py lines 646–658. -/
def csv_header : List String :=
  ["Date", "Age", "Years_at_Company", "Monthly_Income", "OverTime",
   "Job_Satisfaction", "Work_Life_Balance", "Prediction", "Risk_Probability",
   "Risk_Level", "Confidence"]

/-- The single data row of the CSV export. -/
def csv_row (e : EmployeeInput) (pred : ℕ) (p : ℚ) (report_date : String) : List String :=
  [report_date, toString e.age, toString e.yearsAtCompany, toString e.monthlyIncome,
   e.overtime, toString e.jobSatisfaction, toString e.workLifeBalance,
   if pred = 1 then "Attrition" else "Retention",
   fmtFixed 2 p, risk_level p, fmtFixed 1 (confidence p)]

/-- One CSV line: fields quoted minimally and joined by commas. -/
def csv_line (r : List String) : String := String.intercalate "," (r.map csvField)

/-- `csv_data.to_csv(index=False)`: the header line and the single data
row, each terminated by a newline. -/
def csv_data (e : EmployeeInput) (pred : ℕ) (p : ℚ) (report_date : String) : String :=
  csv_line csv_header ++ "\n" ++ csv_line (csv_row e pred p report_date) ++ "\n"

/-- Abstract JSON documents (the value serialized by `json.dumps`). -/
inductive JsonVal where
  | str : String → JsonVal
  | num : ℚ → JsonVal
  | arr : List JsonVal → JsonVal
  | obj : List (String × JsonVal) → JsonVal

/-- The JSON export (app.py lines 671–682), modelled as the document
value handed to `json.dumps` (whose serialization is a fixed function of
this value). -/
def json_data (e : EmployeeInput) (pred : ℕ) (p : ℚ) (report_date : String) : JsonVal :=
  .obj [("report_date", .str report_date),
        ("employee_profile", .obj
          [("Age", .num e.age), ("MonthlyIncome", .num e.monthlyIncome),
           ("YearsAtCompany", .num e.yearsAtCompany), ("OverTime", .str e.overtime),
           ("JobSatisfaction", .num e.jobSatisfaction),
           ("WorkLifeBalance", .num e.workLifeBalance)]),
        ("risk_assessment", .obj
          [("prediction", .str (if pred = 1 then "Attrition" else "Retention")),
           ("probability", .num p), ("risk_level", .str (risk_level p)),
           ("confidence", .num (confidence p))]),
        ("insights", .arr ((insights e p).map .str)),
        ("recommendations", .arr ((actions p).map .str))]

/-- A concrete form submission (the form's default values). -/
def sampleEmployee : EmployeeInput :=
  { age := 30, monthlyIncome := 5000, yearsAtCompany := 5, overtime := "No",
    jobSatisfaction := 3, workLifeBalance := 3 }

set_option maxRecDepth 100000 in
/-- C3 counterexample: the CSV export is NOT a function of the six form
inputs and the prediction result alone — two runs with identical inputs
and identical prediction result but different `datetime.now()` dates
produce different bytes, because the generation date is embedded in the
export. -/
theorem csv_export_depends_on_date :
    csv_data sampleEmployee 0 (1/10) "January 01, 2025"
      ≠ csv_data sampleEmployee 0 (1/10) "January 02, 2025" := by
  decide

/-- C3 amended: each of the three exports is a deterministic function of
the six form inputs, the prediction result, and the generation date —
runs agreeing on all of these produce identical text-report bytes,
identical CSV bytes, and identical JSON documents. -/
theorem exports_deterministic_given_date (e₁ e₂ : EmployeeInput)
    (pred₁ pred₂ : ℕ) (p₁ p₂ : ℚ) (d₁ d₂ : String)
    (he : e₁ = e₂) (hpred : pred₁ = pred₂) (hp : p₁ = p₂) (hd : d₁ = d₂) :
    pdf_text e₁ pred₁ p₁ d₁ = pdf_text e₂ pred₂ p₂ d₂ ∧
      csv_data e₁ pred₁ p₁ d₁ = csv_data e₂ pred₂ p₂ d₂ ∧
      json_data e₁ pred₁ p₁ d₁ = json_data e₂ pred₂ p₂ d₂ := by
  subst he; subst hpred; subst hp; subst hd
  exact ⟨rfl, rfl, rfl⟩

theorem exports_deterministic_given_date_witness :
    pdf_text sampleEmployee 0 (1/10) "January 01, 2025"
        = pdf_text sampleEmployee 0 (1/10) "January 01, 2025" ∧
      csv_data sampleEmployee 0 (1/10) "January 01, 2025"
        = csv_data sampleEmployee 0 (1/10) "January 01, 2025" ∧
      json_data sampleEmployee 0 (1/10) "January 01, 2025"
        = json_data sampleEmployee 0 (1/10) "January 01, 2025" :=
  exports_deterministic_given_date sampleEmployee sampleEmployee 0 0 (1/10) (1/10)
    "January 01, 2025" "January 01, 2025" rfl rfl rfl rfl

/-- C7: the CSV export has exactly the 11 claimed columns in the claimed
order, exactly one data row after the header, and the Prediction cell is
"Attrition" when the predicted label is 1 and "Retention" otherwise. -/
theorem csv_export_shape (e : EmployeeInput) (pred : ℕ) (p : ℚ) (d : String) :
    csv_header = ["Date", "Age", "Years_at_Company", "Monthly_Income", "OverTime",
        "Job_Satisfaction", "Work_Life_Balance", "Prediction", "Risk_Probability",
        "Risk_Level", "Confidence"] ∧
      csv_header.length = 11 ∧ (csv_row e pred p d).length = 11 ∧
      (pred = 1 → (csv_row e pred p d).getD 7 "" = "Attrition") ∧
      (pred ≠ 1 → (csv_row e pred p d).getD 7 "" = "Retention") ∧
      csv_data e pred p d
        = csv_line csv_header ++ "\n" ++ csv_line (csv_row e pred p d) ++ "\n" := by
  refine ⟨rfl, rfl, rfl, fun h => ?_, fun h => ?_, rfl⟩
  · simp [csv_row, h]
  · simp [csv_row, h]

theorem csv_export_shape_witness :
    ((1 : ℕ) = 1 → (csv_row sampleEmployee 1 (7/10) "January 01, 2025").getD 7 ""
        = "Attrition") ∧
      (csv_row sampleEmployee 1 (7/10) "January 01, 2025").getD 7 "" = "Attrition" :=
  ⟨(csv_export_shape sampleEmployee 1 (7/10) "January 01, 2025").2.2.2.1,
   (csv_export_shape sampleEmployee 1 (7/10) "January 01, 2025").2.2.2.1 rfl⟩

/-- The top-level stages of the render script, translated from app.py. -/
inductive RenderStage where
  | loadArtifacts | buildForm | encodeInput | alignColumns | scaleInput
  | predictLabel | renderCharts | renderInsights | renderExports
  deriving DecidableEq

/-- The stages wrapped in an exception handler.  app.py contains no
try/except statement anywhere — in particular none around any
explainability or feature-importance code, which does not exist in the
script (SHAP appears only in a static sidebar info string) — so this
list is empty. -/
def handledStages : List RenderStage := []

/-- C4 counterexample: the program does not contain exactly one
try/catch — it contains none at all. -/
theorem single_handler_refuted : ¬ handledStages.length = 1 := by
  decide

/-- C4 amended: the program contains no try/catch whatsoever (there is no
explainability visualization to wrap), so every error path — missing
artifact files, malformed inputs, scaler/model shape mismatches —
propagates as an unrecovered failure terminating the render. -/
theorem no_exception_handlers :
    handledStages = [] ∧ ∀ s : RenderStage, s ∉ handledStages :=
  ⟨rfl, fun s h => absurd h (List.not_mem_nil s)⟩
